import Mathlib

/- Shallow embedding of src/app.py, the EduContext Flask service.

   Modelling conventions: Python strings are Lean `String` (or `List Char`
   where prefix structure matters); the MySQL store is a list of rows together
   with an explicit `DbOutcome` describing how the environment behaves on one
   write attempt; exceptions raised by external collaborators (the IntaSend
   gateway, the model pipeline, the JSON layer) are explicit constructors, and
   a handler that catches them returns the corresponding error response. -/

namespace EduContext

/-- Fixed message returned by `get_ai_explanation` when the model never loaded
(the `generator is None` branch, app.py line 66). -/
def unavailableMsg : String :=
  "Error: AI model is not available. Please check the server logs."

/-- Fixed apology returned by the `except Exception` branch of
`get_ai_explanation` (app.py line 91). -/
def apologyMsg : String :=
  "Sorry, I encountered an error while generating the explanation."

/-- Behaviour of one run of the text-generation pipeline: either it produces a
generated text, or some exception (also an index or key error on the result
shape) is raised inside the `try` block. -/
inductive GenOutcome
| ok (text : String)
| exn (msg : String)
deriving DecidableEq

/-- Embedding of `get_ai_explanation(topic)` (app.py 65-91). The global
`generator` is `loaded : Bool`, false modelling `generator is None`; the
pipeline call is the explicit `gen : GenOutcome`. Python `.strip()` is
`String.trim`. Every path returns a string; no exception escapes. -/
def get_ai_explanation (loaded : Bool) (topic : String) (gen : GenOutcome) :
    String :=
  if loaded = false then unavailableMsg
  else
    match gen with
    | .ok t => t.trim
    | .exn _ => apologyMsg

/-- Environment behaviour of one call to a database-writing function: the
connection opens and the INSERT commits; or `get_db_connection` returns None;
or the write raises a MySQL `Error` and is rolled back. -/
inductive DbOutcome
| ok
| noConnection
| writeError
deriving DecidableEq

/-- Row of the `relevance_queries` table. -/
structure QueryRow where
  topic : String
  ai_response : String
deriving DecidableEq

/-- Embedding of `save_to_database(topic, ai_response)` (app.py 94-112): with
no connection it logs and returns; a raised `Error` is caught and rolled back;
in both failure cases nothing is persisted and no exception escapes; on
success exactly one row is appended. The Python function returns None, so the
model returns only the updated table. -/
def save_to_database (topic ai_response : String) (outcome : DbOutcome)
    (rows : List QueryRow) : List QueryRow :=
  match outcome with
  | .ok => rows ++ [⟨topic, ai_response⟩]
  | .noConnection => rows
  | .writeError => rows

/-- Row of the `payments` table. Fields that the Python callers may pass as
None are `Option`; `create_user_payment` always writes status "completed". -/
structure PaymentRow where
  user_email : String
  transaction_id : Option String
  amount : Option Int
  currency : String
  status : String
deriving DecidableEq

/-- Embedding of `create_user_payment(user_email, transaction_id, amount,
currency)` (app.py 114-136): returns False and writes nothing when the
connection is missing or the INSERT raises `Error` (rolled back); otherwise
commits exactly one row with status "completed" and returns True. It performs
no existence check for a row with the same transaction id. -/
def create_user_payment (user_email : String) (transaction_id : Option String)
    (amount : Option Int) (currency : String) (outcome : DbOutcome)
    (rows : List PaymentRow) : Bool × List PaymentRow :=
  match outcome with
  | .ok => (true, rows ++ [⟨user_email, transaction_id, amount, currency,
      "completed"⟩])
  | .noConnection => (false, rows)
  | .writeError => (false, rows)

/-- Gateway status dict returned by the IntaSend `collect.status` call,
restricted to the keys `check_payment_status` reads (state, email, amount);
`jsonify(status)` returns this payload verbatim. -/
structure StatusPayload where
  state : Option String
  email : Option String
  amount : Option Int
deriving DecidableEq

/-- Response of the `check-payment-status` route: the raw payload with HTTP
200, or the except branch answering the exception text with HTTP 400. -/
inductive CheckResponse
| status (s : StatusPayload)
| error (msg : String)
deriving DecidableEq

/-- HTTP code of a `CheckResponse`: Flask defaults to 200 for `jsonify`, and
the except branch returns 400 explicitly. -/
def CheckResponse.http : CheckResponse → Nat
  | .status _ => 200
  | .error _ => 400

/-- Embedding of `check_payment_status(invoice_id)` (app.py 197-214). `gw` is
the gateway call, `Except.error` modelling a raised exception (caught and
answered with 400). When the observed state equals COMPLETE it calls
`create_user_payment` with the email defaulted to the empty string and the
amount defaulted to 0, ignores the returned Bool, and still returns the raw
payload with 200; any other state returns the payload with no write. -/
def check_payment_status (invoice_id : String)
    (gw : Except String StatusPayload) (outcome : DbOutcome)
    (rows : List PaymentRow) : CheckResponse × List PaymentRow :=
  match gw with
  | .error e => (.error e, rows)
  | .ok st =>
    if st.state = some "COMPLETE" then
      let r := create_user_payment (st.email.getD "") (some invoice_id)
        (some (st.amount.getD 0)) "KES" outcome rows
      (.status st, r.2)
    else
      (.status st, rows)

/-- Value of the customer key of a webhook body, as the chained reads on
app.py line 242 see it: the key is absent (the outer `get` supplies the empty
dict, so the inner `get` yields the default empty string); or the key holds a
JSON object with an optional email entry; or the key is present with a
non-object value (for example null), on which the inner `get` raises an
AttributeError. -/
inductive CustomerField
| absent
| dict (email : Option String)
| nonDict
deriving DecidableEq

/-- Body of a POSTed webhook request as `request.json` delivers it:
`jsonNull` models a request whose parsed JSON document is not an object (for
example the body null), on which `data.get` raises an AttributeError inside
the `try`; `obj` carries the keys the handler reads, the customer key with
its three possible shapes. -/
inductive WebhookBody
| jsonNull
| obj (event : Option String) (transaction_id : Option String)
    (amount : Option Int) (customer : CustomerField)
deriving DecidableEq

/-- Response of the `webhook` route: the fixed success body with HTTP 200, or
the except branch answering the exception text with HTTP 400. -/
inductive WebhookResponse
| received
| error (msg : String)
deriving DecidableEq

/-- HTTP code of a `WebhookResponse`. -/
def WebhookResponse.http : WebhookResponse → Nat
  | .received => 200
  | .error _ => 400

/-- Embedding of `intasend_webhook()` (app.py 233-253). Field access on a
non-object body raises, reaching the except branch (400). On an event equal to
payment.completed the handler reads the customer email (app.py 242), which
raises an AttributeError when the customer key is present with a non-object
value — also answered 400 with no write; otherwise it calls
`create_user_payment` (Bool result ignored, and that function itself swallows
database failures). Every non-raising path answers the fixed success body,
and when the event is anything else the customer key is never read. -/
def intasend_webhook (body : WebhookBody) (outcome : DbOutcome)
    (rows : List PaymentRow) : WebhookResponse × List PaymentRow :=
  match body with
  | .jsonNull => (.error "AttributeError", rows)
  | .obj event transaction_id amount customer =>
    if event = some "payment.completed" then
      match customer with
      | .nonDict => (.error "AttributeError", rows)
      | .absent =>
        let r := create_user_payment "" transaction_id amount "KES" outcome
          rows
        (.received, r.2)
      | .dict email =>
        let r := create_user_payment (email.getD "") transaction_id amount
          "KES" outcome rows
        (.received, r.2)
    else
      (.received, rows)

/-- Response of the `get_relevance` route: topic and generated text with HTTP
200, or the fixed validation error with HTTP 400. -/
inductive RelevanceResponse
| ok (topic relevance : String)
| badRequest (error : String)
deriving DecidableEq

/-- HTTP code of a `RelevanceResponse`. -/
def RelevanceResponse.http : RelevanceResponse → Nat
  | .ok _ _ => 200
  | .badRequest _ => 400

/-- Result of one call to `get_relevance`, with flags recording whether the
model pipeline and the query-log write were reached. -/
structure RelevanceResult where
  resp : RelevanceResponse
  qrows : List QueryRow
  genCalled : Bool
  saveCalled : Bool
deriving DecidableEq

/-- Embedding of `get_relevance()` (app.py 145-157). `topic` is the value of
`data.get` on the topic key; the Python truthiness test `not topic` is true
both for a missing key (`none`) and for the empty string, and in that case
the handler returns 400 before any model call or database write. -/
def get_relevance (topic : Option String) (loaded : Bool) (gen : GenOutcome)
    (outcome : DbOutcome) (qrows : List QueryRow) : RelevanceResult :=
  match topic with
  | none => ⟨.badRequest "No topic provided", qrows, false, false⟩
  | some t =>
    if t = "" then ⟨.badRequest "No topic provided", qrows, false, false⟩
    else
      let ai := get_ai_explanation loaded t gen
      ⟨.ok t ai, save_to_database t ai outcome qrows, true, true⟩

/-- Modelled from the spec: the GET health endpoint is absent from src/app.py
(the repository holds three near-duplicate iterations of the service and only
one is under src). Per spec section 6 the response carries status "healthy"
and the three boolean service flags. -/
structure HealthResponse where
  status : String
  ai_model_loaded : Bool
  payment_configured : Bool
  database_configured : Bool
deriving DecidableEq

/-- Modelled from the spec: GET health reports the three service flags exactly
as configured and always answers with status "healthy"; the endpoint itself
never fails. -/
def health_endpoint (ai_model_loaded payment_configured database_configured :
    Bool) : HealthResponse :=
  ⟨"healthy", ai_model_loaded, payment_configured, database_configured⟩

/-- Country code 254 as characters; the phone-formatting block is modelled
over `List Char`, the character sequence of the Python string. -/
def countryCode : List Char := ['2', '5', '4']

/-- Embedding of the phone-formatting block of `initiate_payment` (app.py
172-176): a phone starting with the character 0 has that character replaced by
254; otherwise, unless the phone already starts with 254, 254 is prepended. -/
def normalize_phone (phone : List Char) : List Char :=
  if ['0'].isPrefixOf phone then countryCode ++ phone.drop 1
  else if countryCode.isPrefixOf phone then phone
  else countryCode ++ phone

/-- String-level wrapper of `normalize_phone`. -/
def normalize_phone_str (phone : String) : String :=
  ⟨normalize_phone phone.data⟩

/-- Rows of the payments table whose transaction id is the given invoice. -/
def rowsFor (invoice : String) (rows : List PaymentRow) : List PaymentRow :=
  rows.filter fun r => r.transaction_id == some invoice

/-- Claim C1, refuted on the code at a concrete input: with a healthy
database, two successive COMPLETE polls of the same invoice persist two
payment rows for that invoice, not one — `check_payment_status` writes on
every COMPLETE observation and `create_user_payment` never checks whether a
row for the transaction id already exists. -/
theorem C1_two_complete_polls_two_rows :
    (rowsFor "INV1"
      (check_payment_status "INV1"
        (.ok ⟨some "COMPLETE", some "user@example.com", some 20⟩) .ok
        (check_payment_status "INV1"
          (.ok ⟨some "COMPLETE", some "user@example.com", some 20⟩) .ok
          []).2).2).length = 2 ∧
    ¬ (rowsFor "INV1"
      (check_payment_status "INV1"
        (.ok ⟨some "COMPLETE", some "user@example.com", some 20⟩) .ok
        (check_payment_status "INV1"
          (.ok ⟨some "COMPLETE", some "user@example.com", some 20⟩) .ok
          []).2).2).length = 1 := by
  exact ⟨by decide, by decide⟩

/-- Claim C2: for every non-empty topic `get_ai_explanation` returns a string
on every path — the fixed unavailable message when the model did not load,
the fixed apology when generation raises, and the stripped generated text on
success — and never propagates the exception. -/
theorem C2_explanation_never_raises (loaded : Bool) (topic : String)
    (gen : GenOutcome) (htopic : topic ≠ "") :
    (loaded = false → get_ai_explanation loaded topic gen = unavailableMsg) ∧
    (∀ e, loaded = true → gen = .exn e →
      get_ai_explanation loaded topic gen = apologyMsg) ∧
    (∀ t, loaded = true → gen = .ok t →
      get_ai_explanation loaded topic gen = t.trim) := by
  refine ⟨?_, ?_, ?_⟩ <;> intros <;> subst_vars <;> simp [get_ai_explanation]

/-- Witness for C2 at a concrete input. -/
theorem C2_explanation_never_raises_witness :
    ("math" : String) ≠ "" ∧
    get_ai_explanation false "math" (.ok "text") = unavailableMsg :=
  ⟨by decide,
   (C2_explanation_never_raises false "math" (.ok "text") (by decide)).1 rfl⟩

/-- Claim C3: phone formatting in `initiate_payment` — a leading 0 is
replaced by 254, a phone already starting with 254 is passed through
unchanged, and any other phone has 254 prepended; including the three
concrete examples from the spec. -/
theorem C3_phone_normalization :
    (∀ r : List Char, normalize_phone ('0' :: r) = countryCode ++ r) ∧
    (∀ p : List Char, countryCode.isPrefixOf p = true →
      normalize_phone p = p) ∧
    (∀ p : List Char, (['0'] : List Char).isPrefixOf p = false →
      countryCode.isPrefixOf p = false →
      normalize_phone p = countryCode ++ p) ∧
    normalize_phone_str "0712345678" = "254712345678" ∧
    normalize_phone_str "254712345678" = "254712345678" ∧
    normalize_phone_str "712345678" = "254712345678" := by
  refine ⟨?_, ?_, ?_, by decide, by decide, by decide⟩
  · intro r
    simp [normalize_phone, List.isPrefixOf]
  · intro p h
    cases p with
    | nil => simp [countryCode, List.isPrefixOf] at h
    | cons c t =>
      simp [countryCode, List.isPrefixOf] at h
      obtain ⟨hc, ht⟩ := h
      subst hc
      simp [normalize_phone, countryCode, List.isPrefixOf, ht]
  · intro p h1 h2
    simp [normalize_phone, h1, h2]

/-- Witness for C3 at a concrete input. -/
theorem C3_phone_normalization_witness :
    countryCode.isPrefixOf ['2', '5', '4', '1'] = true ∧
    normalize_phone ['2', '5', '4', '1'] = ['2', '5', '4', '1'] :=
  ⟨by decide, C3_phone_normalization.2.1 _ (by decide)⟩

/-- Claim C4, refuted as stated: a gateway payload whose state is the
unrecognized string BOGUS is returned verbatim by `check_payment_status` —
it is not rewritten to ERROR and lies outside the canonical vocabulary. -/
theorem C4_unrecognized_state_passes_through :
    (check_payment_status "INV1" (.ok ⟨some "BOGUS", none, none⟩) .ok
      []).1 = .status ⟨some "BOGUS", none, none⟩ ∧
    ("BOGUS" : String) ∉
      (["PENDING", "COMPLETE", "FAILED", "ERROR"] : List String) := by
  exact ⟨rfl, by decide⟩

/-- Claim C4 amended: `check_payment_status` applies no vocabulary mapping at
all — every non-raising gateway payload is returned verbatim (so an
unrecognized state is passed through, never rewritten to ERROR and never
defaulted to PENDING), and a raised gateway exception is answered as a 400
error response rather than any PENDING default. -/
theorem C4_raw_status_passthrough (invoice : String) (st : StatusPayload)
    (outcome : DbOutcome) (rows : List PaymentRow) (e : String) :
    (check_payment_status invoice (.ok st) outcome rows).1 = .status st ∧
    (check_payment_status invoice (.error e) outcome rows).1 = .error e ∧
    ((check_payment_status invoice (.error e) outcome rows).1).http = 400 := by
  refine ⟨?_, rfl, rfl⟩
  by_cases h : st.state = some "COMPLETE" <;>
    simp [check_payment_status, h]

/-- Claim C5, refuted as stated: a POSTed body whose JSON document is null
makes field access raise inside the handler, and the webhook answers a 400
error response, not success. -/
theorem C5_null_body_gets_error :
    (intasend_webhook .jsonNull .ok []).1 ≠ .received ∧
    ((intasend_webhook .jsonNull .ok []).1).http = 400 :=
  ⟨by decide, rfl⟩

/-- Claim C5 amended: for every JSON-object payload on which the handler's
field access does not raise — that is, whenever the event is
payment.completed the customer key is absent or holds an object — the webhook
answers the fixed success body with HTTP 200 regardless of whether the
payment-record write succeeds or fails; a body on which field access raises
(a non-object JSON document, or a payment.completed event whose customer key
holds a non-object value) reaches the except branch and is answered 400. -/
theorem C5_success_when_fields_readable (event transaction_id : Option String)
    (amount : Option Int) (customer : CustomerField) (outcome : DbOutcome)
    (rows : List PaymentRow)
    (h : event = some "payment.completed" → customer ≠ .nonDict) :
    (intasend_webhook (.obj event transaction_id amount customer)
      outcome rows).1 = .received ∧
    ((intasend_webhook (.obj event transaction_id amount customer)
      outcome rows).1).http = 200 := by
  by_cases he : event = some "payment.completed"
  · cases customer with
    | nonDict => exact absurd rfl (h he)
    | absent => simp [intasend_webhook, he, WebhookResponse.http]
    | dict email => simp [intasend_webhook, he, WebhookResponse.http]
  · simp [intasend_webhook, he, WebhookResponse.http]

/-- Witness for the amended C5 at a concrete input: a payment.completed
object payload with an object customer value succeeds even when the
payment-record write fails. -/
theorem C5_success_when_fields_readable_witness :
    ((some "payment.completed" : Option String) = some "payment.completed" →
      CustomerField.dict (some "user@example.com") ≠ CustomerField.nonDict) ∧
    (intasend_webhook
      (.obj (some "payment.completed") (some "TX1") (some 20)
        (.dict (some "user@example.com"))) .noConnection []).1 = .received :=
  ⟨fun _ => by decide,
   (C5_success_when_fields_readable (some "payment.completed") (some "TX1")
     (some 20) (.dict (some "user@example.com")) .noConnection []
     (fun _ => by decide)).1⟩

/-- Claim C6: a poll whose observed state is anything other than COMPLETE
(FAILED, ERROR, or any other value) writes no payment record and raises no
error — the table is unchanged and the raw payload is returned; in particular
a FAILED poll arriving after an invoice was recorded COMPLETE leaves the
persisted record untouched. -/
theorem C6_non_complete_never_writes (invoice : String) (st : StatusPayload)
    (outcome : DbOutcome) (rows : List PaymentRow)
    (h : st.state ≠ some "COMPLETE") :
    check_payment_status invoice (.ok st) outcome rows = (.status st, rows) := by
  simp [check_payment_status, h]

/-- Witness for C6: a FAILED poll after a persisted COMPLETE record leaves
the record unchanged. -/
theorem C6_non_complete_never_writes_witness :
    (⟨some "FAILED", none, none⟩ : StatusPayload).state ≠ some "COMPLETE" ∧
    check_payment_status "INV1" (.ok ⟨some "FAILED", none, none⟩) .ok
        [⟨"user@example.com", some "INV1", some 20, "KES", "completed"⟩]
      = (.status ⟨some "FAILED", none, none⟩,
        [⟨"user@example.com", some "INV1", some 20, "KES", "completed"⟩]) :=
  ⟨by decide, C6_non_complete_never_writes _ _ _ _ (by decide)⟩

/-- Claim C7: a missing or empty topic yields a 400 response whose error
field reads No topic provided, with no model call and no query row written. -/
theorem C7_missing_topic_rejected (topic : Option String) (loaded : Bool)
    (gen : GenOutcome) (outcome : DbOutcome) (qrows : List QueryRow)
    (h : topic = none ∨ topic = some "") :
    get_relevance topic loaded gen outcome qrows
      = ⟨.badRequest "No topic provided", qrows, false, false⟩ ∧
    (get_relevance topic loaded gen outcome qrows).resp.http = 400 := by
  rcases h with h | h <;> subst h <;> exact ⟨rfl, rfl⟩

/-- Witness for C7 at a concrete input. -/
theorem C7_missing_topic_rejected_witness :
    ((none : Option String) = none ∨ (none : Option String) = some "") ∧
    get_relevance none true (.ok "t") .ok []
      = ⟨.badRequest "No topic provided", [], false, false⟩ :=
  ⟨Or.inl rfl,
   (C7_missing_topic_rejected none true (.ok "t") .ok [] (Or.inl rfl)).1⟩

/-- Claim C8: when the query-log write fails — no connection, or the write
raises — `get_relevance` still answers HTTP 200 with the already generated
text; the persistence failure is swallowed and no query row is written. -/
theorem C8_log_failure_swallowed (t : String) (loaded : Bool)
    (gen : GenOutcome) (outcome : DbOutcome) (qrows : List QueryRow)
    (ht : t ≠ "")
    (hfail : outcome = .noConnection ∨ outcome = .writeError) :
    (get_relevance (some t) loaded gen outcome qrows).resp
      = .ok t (get_ai_explanation loaded t gen) ∧
    (get_relevance (some t) loaded gen outcome qrows).resp.http = 200 ∧
    (get_relevance (some t) loaded gen outcome qrows).qrows = qrows := by
  rcases hfail with h | h <;> subst h <;>
    simp [get_relevance, ht, save_to_database, RelevanceResponse.http]

/-- Witness for C8 at a concrete input. -/
theorem C8_log_failure_swallowed_witness :
    (("math" : String) ≠ "" ∧
      (DbOutcome.noConnection = DbOutcome.noConnection ∨
        DbOutcome.noConnection = DbOutcome.writeError)) ∧
    (get_relevance (some "math") true (.ok "text") .noConnection []).resp
      = .ok "math" (get_ai_explanation true "math" (.ok "text")) :=
  ⟨⟨by decide, Or.inl rfl⟩,
   (C8_log_failure_swallowed "math" true (.ok "text") .noConnection []
     (by decide) (Or.inl rfl)).1⟩

/-- Claim C9 (health endpoint modelled from the spec, absent from
src/app.py): the operation is total, always reports status "healthy", and
returns exactly the three configured service flags — in particular with
nothing configured all three flags are false and the status is still
"healthy". -/
theorem C9_health_always_healthy (ai payment db : Bool) :
    (health_endpoint ai payment db).status = "healthy" ∧
    (health_endpoint ai payment db).ai_model_loaded = ai ∧
    (health_endpoint ai payment db).payment_configured = payment ∧
    (health_endpoint ai payment db).database_configured = db :=
  ⟨rfl, rfl, rfl, rfl⟩

/-- Claim C10: when the gateway reports COMPLETE but the payment-record write
fails, the poller still receives HTTP 200 with the raw payload — identical to
the response after a successful write, so the caller cannot distinguish the
two — and missing email and amount fields are defaulted to the empty string
and 0 in the row the write attempts. -/
theorem C10_write_failure_invisible (invoice : String)
    (rows : List PaymentRow) (st : StatusPayload) (outcome : DbOutcome)
    (hs : st.state = some "COMPLETE") (he : st.email = none)
    (ha : st.amount = none)
    (hfail : outcome = .noConnection ∨ outcome = .writeError) :
    (check_payment_status invoice (.ok st) outcome rows).1 = .status st ∧
    ((check_payment_status invoice (.ok st) outcome rows).1).http = 200 ∧
    (check_payment_status invoice (.ok st) outcome rows).2 = rows ∧
    (check_payment_status invoice (.ok st) outcome rows).1
      = (check_payment_status invoice (.ok st) .ok rows).1 ∧
    (check_payment_status invoice (.ok st) .ok rows).2
      = rows ++ [⟨"", some invoice, some 0, "KES", "completed"⟩] := by
  rcases hfail with h | h <;> subst h <;>
    simp [check_payment_status, create_user_payment, hs, he, ha,
      CheckResponse.http]

/-- Witness for C10 at a concrete input. -/
theorem C10_write_failure_invisible_witness :
    ((⟨some "COMPLETE", none, none⟩ : StatusPayload).state
        = some "COMPLETE" ∧
      (⟨some "COMPLETE", none, none⟩ : StatusPayload).email = none ∧
      (⟨some "COMPLETE", none, none⟩ : StatusPayload).amount = none ∧
      (DbOutcome.noConnection = DbOutcome.noConnection ∨
        DbOutcome.noConnection = DbOutcome.writeError)) ∧
    (check_payment_status "INV1" (.ok ⟨some "COMPLETE", none, none⟩)
      .noConnection []).2 = [] :=
  ⟨⟨rfl, rfl, rfl, Or.inl rfl⟩,
   (C10_write_failure_invisible "INV1" [] ⟨some "COMPLETE", none, none⟩
     .noConnection rfl rfl rfl (Or.inl rfl)).2.2.1⟩

end EduContext
